import Mathlib

/-!
Shallow embedding of `src/fedora_l10n/api.py` (Weblate API client with
caching and rate limiting) and verification of its specification claims.

Python `None` and JSON `null` are the same value; both are modelled by
`Jv.null`.  Machine floats (`time.time()`) are modelled by `ℚ`.
-/

namespace FedoraL10n

/-- `CACHE_TTL = 3600` seconds (api.py line 13). -/
def CACHE_TTL : ℚ := 3600

/-- `RATE_DELAY = 0.6` seconds (api.py line 14). -/
def RATE_DELAY : ℚ := 3/5

/-- `MAX_RETRIES = 5` (api.py line 15). -/
def MAX_RETRIES : ℕ := 5

/-- `BASE_URL` (api.py line 11). -/
def BASE_URL : String := "https://translate.fedoraproject.org/api"

/-- JSON-like Python values, as produced by `json.loads`.  Python `None`
(= JSON `null`) is `Jv.null`; numbers are collapsed to `ℚ`. -/
inductive Jv where
  | null : Jv
  | bool (b : Bool) : Jv
  | num (q : ℚ) : Jv
  | str (s : String) : Jv
  | arr (xs : List Jv) : Jv
  | obj (fields : List (String × Jv)) : Jv

/-- Python exceptions that the embedded code can raise or propagate. -/
inductive PyErr where
  | attributeError : PyErr          -- e.g. `x.get` on a non-dict
  | typeError : PyErr               -- e.g. arithmetic on a non-number
  | oserror : PyErr                 -- OSError (e.g. from CACHE_DIR.mkdir)
  | netError : PyErr                -- urllib.error.URLError / OSError from the network
  | httpError (code : ℕ) : PyErr    -- urllib.error.HTTPError with a status code
  | outOfFuel : PyErr               -- modelling artifact: unbounded `while` given too little fuel
deriving DecidableEq

/-- Python truthiness (`if key:` / `while url:`). -/
def Jv.truthy : Jv → Bool
  | .null => false
  | .bool b => b
  | .num q => decide (q ≠ 0)
  | .str s => decide (s ≠ "")
  | .arr xs => !xs.isEmpty
  | .obj fs => !fs.isEmpty

/-- `data.get(k, dflt)`: dict lookup with default; `AttributeError` when the
value is not a dict (this exception type is NOT caught by `_read_cache`). -/
def pyGet (j : Jv) (k : String) (dflt : Jv) : Except PyErr Jv :=
  match j with
  | .obj fs => .ok ((fs.lookup k).getD dflt)
  | _ => .error .attributeError

/-- Numeric coercion as used by Python arithmetic (`time.time() - x`,
`x + 49`): numbers and booleans are numeric, everything else raises
`TypeError` (also NOT caught by `_read_cache`). -/
def Jv.asNum : Jv → Except PyErr ℚ
  | .num q => .ok q
  | .bool b => .ok (if b then 1 else 0)
  | _ => .error .typeError

/-- `list.extend(x)` target: only JSON arrays occur in the pages the claims
are about, so the other (Python-iterable) cases are modelled as errors. -/
def Jv.asList : Jv → Except PyErr (List Jv)
  | .arr xs => .ok xs
  | _ => .error .typeError

/-- One cache file on disk for a given URL: absent, unreadable
(`read_text` raises OSError), malformed (`json.loads` raises
JSONDecodeError), or parsed JSON content. -/
inductive CacheFile where
  | unreadable : CacheFile
  | malformed : CacheFile
  | content (j : Jv) : CacheFile

/-- `_read_cache` (api.py lines 107-116).  Returns the Python value handed
back to `_fetch`: `Jv.null` for a miss (file absent, caught exception,
expired entry, or stored payload `null`), the payload on a hit, and
`.error` when an exception escapes (only `JSONDecodeError` and `OSError`
are caught by the `except` clause). -/
def read_cache (now : ℚ) : Option CacheFile → Except PyErr Jv
  | none => .ok .null
  | some .unreadable => .ok .null
  | some .malformed => .ok .null
  | some (.content j) => do
    let tsv ← pyGet j "_ts" (.num 0)
    let ts ← tsv.asNum
    if now - ts < CACHE_TTL then
      pyGet j "_payload" .null
    else
      pure .null

/-- Outcome of `_write_cache` (api.py lines 119-125) when it runs.
`CACHE_DIR.mkdir` is OUTSIDE the `try`, so an OSError there propagates
(`mkdirRaise`); an OSError from `write_text` is caught (`failSwallowed`). -/
inductive CacheWrite where
  | ok : CacheWrite
  | failSwallowed : CacheWrite
  | mkdirRaise : CacheWrite

/-- What the network does on a given attempt of `_fetch`'s retry loop:
a 2xx response whose body decodes to `body` (with the behaviour of the
subsequent cache write), an `HTTPError` with a status code, or a
transient `URLError`/`OSError`. -/
inductive NetAttempt where
  | success (body : Jv) (wr : CacheWrite) : NetAttempt
  | httpError (code : ℕ) : NetAttempt
  | netError : NetAttempt

/-- The backoff sleep `RATE_DELAY * (2 ** attempt)` (api.py lines 155, 161). -/
def backoff (attempt : ℕ) : ℚ := RATE_DELAY * 2 ^ attempt

/-- Observable outcome of one `_fetch` call: the returned value (or the
exception that escaped), the number of network requests issued, the
backoff sleeps performed (in order), and the number of completed cache
writes.  A return of Python `None` is `result = .ok .null`. -/
structure FetchResult where
  result : Except PyErr Jv
  netCalls : ℕ
  backoffSleeps : List ℚ
  cacheWrites : ℕ

/-- The retry loop of `_fetch` (api.py lines 136-165), `for attempt in
range(MAX_RETRIES)`: fuel counts the remaining iterations.  On 429 the
code sleeps the backoff and continues (even on the last attempt); on a
transient error it sleeps and continues only while `attempt <
MAX_RETRIES - 1`, otherwise re-raises; any other HTTP status re-raises
immediately.  On success it decodes the body, performs the cache write
when `use_cache` — and because `except (URLError, OSError)` also catches
an OSError escaping `_write_cache`, a `mkdirRaise` there is treated like
a transient network failure.  Falling off the loop returns `None`. -/
def fetchLoop (net : ℕ → NetAttempt) (useCache : Bool) : ℕ → ℕ → FetchResult
  | _, 0 => ⟨.ok .null, 0, [], 0⟩
  | attempt, fuel+1 =>
    match net attempt with
    | .success body wr =>
      if useCache then
        match wr with
        | .ok => ⟨.ok body, 1, [], 1⟩
        | .failSwallowed => ⟨.ok body, 1, [], 0⟩
        | .mkdirRaise =>
          if attempt < MAX_RETRIES - 1 then
            let r := fetchLoop net useCache (attempt+1) fuel
            ⟨r.result, r.netCalls + 1, backoff attempt :: r.backoffSleeps, r.cacheWrites⟩
          else ⟨.error .oserror, 1, [], 0⟩
      else ⟨.ok body, 1, [], 0⟩
    | .httpError code =>
      if code = 429 then
        let r := fetchLoop net useCache (attempt+1) fuel
        ⟨r.result, r.netCalls + 1, backoff attempt :: r.backoffSleeps, r.cacheWrites⟩
      else ⟨.error (.httpError code), 1, [], 0⟩
    | .netError =>
      if attempt < MAX_RETRIES - 1 then
        let r := fetchLoop net useCache (attempt+1) fuel
        ⟨r.result, r.netCalls + 1, backoff attempt :: r.backoffSleeps, r.cacheWrites⟩
      else ⟨.error .netError, 1, [], 0⟩

/-- `_fetch(url, use_cache)` (api.py lines 128-165) for one URL whose cache
file is `file` and whose network behaviour is `net`.  `if cached is not
None: return cached` serves the cached value only when it is not `null`;
otherwise the retry loop runs with `attempt = 0` and `MAX_RETRIES`
iterations of budget. -/
def fetch (net : ℕ → NetAttempt) (useCache : Bool) (now : ℚ)
    (file : Option CacheFile) : FetchResult :=
  if useCache then
    match read_cache now file with
    | .error e => ⟨.error e, 0, [], 0⟩
    | .ok .null => fetchLoop net useCache 0 MAX_RETRIES
    | .ok v => ⟨.ok v, 0, [], 0⟩
  else fetchLoop net useCache 0 MAX_RETRIES

/-- The credential-source environment seen by `_get_api_key`: the two
environment variables, the libsecret lookup result (`none` both for a
missing item and for a raised exception, which the code swallows), and
the config file's text (`none` when the file does not exist). -/
structure CredEnv where
  weblate : Option String     -- os.environ.get("WEBLATE_API_KEY")
  fedora : Option String      -- os.environ.get("FEDORA_WEBLATE_KEY")
  secret : Option String      -- Secret.password_lookup_sync result, none on failure
  config : Option String      -- config file content, none if the file is absent

/-- Python `str.strip()`: remove leading and trailing whitespace. -/
def pyStrip (s : String) : String :=
  String.mk (((s.data.dropWhile Char.isWhitespace).reverse.dropWhile
    Char.isWhitespace).reverse)

/-- Python `a or b` on `os.environ.get` results (None / strings, where the
empty string is falsy). -/
def pyOrStr : Option String → Option String → Option String
  | some s, b => if s = "" then b else some s
  | none, b => b

/-- Python truthiness of an `Option String` (`if key:`). -/
def strTruthy : Option String → Bool
  | some s => decide (s ≠ "")
  | none => false

/-- `_get_api_key` (api.py lines 21-61), with the module-global `_api_key`
passed explicitly: `none` = not yet resolved, `some ""` = confirmed
absent, `some k` = resolved key.  Returns the Python result together
with the new value of `_api_key`. -/
def get_api_key (env : CredEnv) (memo : Option String) :
    Option String × Option String :=
  match memo with
  | some s => (if s = "" then none else some s, some s)
  | none =>
    let key := pyOrStr env.weblate env.fedora
    if strTruthy key then (key, key)
    else if strTruthy env.secret then (env.secret, env.secret)
    else
      match env.config with
      | some c =>
        let k := pyStrip c
        if k = "" then (none, some "") else (some k, some k)
      | none => (none, some "")

/-- The pagination loop of `get_projects` (api.py lines 172-185), with the
network abstracted to `pageOf : url ↦ value returned by _fetch` and the
progress callback recorded as the list of `(page, total_pages)` pairs it
is invoked with.  `while url:` is Python truthiness of the current `url`
value (the initial string, later `data.get("next")`); `fuel` bounds the
unbounded loop (a modelling artifact, spent one unit per test of the
loop condition). -/
def get_projects_loop (pageOf : String → Jv) :
    ℕ → Jv → ℕ → Except PyErr (List Jv × List (ℕ × ℤ))
  | 0, _, _ => .error .outOfFuel
  | fuel+1, url, page =>
    if url.truthy then
      match url with
      | .str s =>
        match pageOf s with
        | .null => .ok ([], [])
        | data => do
          let resultsJ ← pyGet data "results" (.arr [])
          let results ← resultsJ.asList
          let next ← pyGet data "next" .null
          let countJ ← pyGet data "count" (.num 0)
          let count ← countJ.asNum
          let totalPages : ℤ := ⌊(count + 49) / 50⌋
          let rest ← get_projects_loop pageOf fuel next (page+1)
          .ok (results ++ rest.1, (page + 1, totalPages) :: rest.2)
      | _ => .error .typeError
    else .ok ([], [])

/-- `get_projects` (api.py lines 168-185): start the traversal at the
first page URL with `page = 0`. -/
def get_projects (pageOf : String → Jv) (fuel : ℕ) :
    Except PyErr (List Jv × List (ℕ × ℤ)) :=
  get_projects_loop pageOf fuel (.str (BASE_URL ++ "/projects/?page_size=50")) 0

/-- The pagination loop of `get_components` (api.py lines 199-205): same
traversal as `get_projects_loop` but with no page counter and no
callback. -/
def get_components_loop (pageOf : String → Jv) :
    ℕ → Jv → Except PyErr (List Jv)
  | 0, _ => .error .outOfFuel
  | fuel+1, url =>
    if url.truthy then
      match url with
      | .str s =>
        match pageOf s with
        | .null => .ok []
        | data => do
          let resultsJ ← pyGet data "results" (.arr [])
          let results ← resultsJ.asList
          let next ← pyGet data "next" .null
          let rest ← get_components_loop pageOf fuel next
          .ok (results ++ rest)
      | _ => .error .typeError
    else .ok []

/-- `get_components` (api.py lines 196-205). -/
def get_components (pageOf : String → Jv) (slug : String) (fuel : ℕ) :
    Except PyErr (List Jv) :=
  get_components_loop pageOf fuel
    (.str (BASE_URL ++ "/projects/" ++ slug ++ "/components/?page_size=50"))

/-- A convenient constructor for one well-formed page object
`{results: ..., next: ..., count: ...}` as the backend returns it. -/
def mkPage (results : List Jv) (next : Jv) (count : ℚ) : Jv :=
  .obj [("results", .arr results), ("next", next), ("count", .num count)]

/-- One pass through the rate limiter followed by the recording of the new
last-request instant (api.py lines 137-139 and 147).  `last` is the
shared `_last_request_time`, `now` the wall clock at loop entry;
`time.sleep(RATE_DELAY - elapsed)` suspends for at least the requested
duration, and `ε ≥ 0` absorbs both sleep overshoot and the time spent
between waking and executing line 147.  The value returned is the new
`_last_request_time`, recorded immediately before `urlopen` runs. -/
def rateLimitedStart (last now ε : ℚ) : ℚ :=
  let elapsed := now - last
  (if elapsed < RATE_DELAY then now + (RATE_DELAY - elapsed) else now) + ε

/-- The recorded start instants of a sequence of network requests issued
through the rate limiter: each event is `(now, ε)` — the wall clock when
the attempt reaches line 137 and the nonnegative slack of that pass —
and each recorded instant becomes the `_last_request_time` seen by the
next request. -/
def startTimes (t0 : ℚ) : List (ℚ × ℚ) → List ℚ
  | [] => []
  | (now, ε) :: rest =>
    let t := rateLimitedStart t0 now ε
    t :: startTimes t rest

/-- The module-level mutable state of api.py: the cache directory (one
entry per cache file; every file `_write_cache` creates is named
`<16 hex chars>.json`, so the map is keyed by the 16-character stem),
the memoized `_api_key`, and `_last_request_time`. -/
structure ApiState where
  cacheDir : List (String × CacheFile)
  apiKeyMemo : Option String
  lastRequestTime : ℚ

/-- `clear_cache` (api.py lines 212-215): `glob("*.json")` + `unlink`
removes every file in the cache directory (each one ends in `.json` by
construction of `_cache_path`); nothing else is touched. -/
def clear_cache (s : ApiState) : ApiState :=
  { s with cacheDir := [] }

/-- Helper: a well-formed cache entry `{_ts: ts, _payload: payload}` whose
age is below `CACHE_TTL` is read back as its payload. -/
theorem read_cache_fresh (now ts : ℚ) (payload : Jv)
    (h : now - ts < CACHE_TTL) :
    read_cache now
      (some (.content (.obj [("_ts", .num ts), ("_payload", payload)]))) =
    .ok payload := by
  simp [read_cache, pyGet, Jv.asNum, List.lookup, bind, Except.bind, h]

/-- Helper: a well-formed cache entry whose age has reached `CACHE_TTL`
is read back as `None` (a miss). -/
theorem read_cache_stale (now ts : ℚ) (payload : Jv)
    (h : CACHE_TTL ≤ now - ts) :
    read_cache now
      (some (.content (.obj [("_ts", .num ts), ("_payload", payload)]))) =
    .ok .null := by
  simp [read_cache, pyGet, Jv.asNum, List.lookup, bind, Except.bind, pure,
    Except.pure, not_lt.mpr h]

/-- Helper: when the cache read yields a non-`None` value, `_fetch`
returns it with no network call, no sleep and no cache write. -/
theorem fetch_hit (net : ℕ → NetAttempt) (now : ℚ) (file : Option CacheFile)
    (v : Jv) (hr : read_cache now file = .ok v) (hv : v ≠ .null) :
    fetch net true now file = ⟨.ok v, 0, [], 0⟩ := by
  cases v with
  | null => exact absurd rfl hv
  | _ => simp [fetch, hr]

/-- Helper: when the cache read yields `None`, `_fetch` enters the retry
loop with a full attempt budget. -/
theorem fetch_miss (net : ℕ → NetAttempt) (now : ℚ) (file : Option CacheFile)
    (hr : read_cache now file = .ok .null) :
    fetch net true now file = fetchLoop net true 0 MAX_RETRIES := by
  simp [fetch, hr]

/-- C1 counterexample: the cache holds a well-formed, unexpired entry
(`_ts = 1000`, read at `now = 1000`, so its age `0 < CACHE_TTL`) whose
stored payload is JSON `null`.  The claim says this call returns the
stored payload with zero network calls; the code instead treats the
entry as a miss (`if cached is not None`), performs one network request
and returns the fresh body `7`. -/
theorem c1_counterexample :
    fetch (fun _ => .success (.num 7) .ok) true 1000
      (some (.content (.obj [("_ts", .num 1000), ("_payload", .null)]))) =
      ⟨.ok (.num 7), 1, [], 1⟩ := by
  rw [fetch_miss _ _ _ (read_cache_fresh 1000 1000 .null (by norm_num [CACHE_TTL]))]
  simp [fetchLoop, MAX_RETRIES]

/-- C1 (amended): for every URL whose cache file holds a well-formed entry
with a non-null payload, a `use_cache` fetch while the entry's age is
strictly below `CACHE_TTL` returns the stored payload with zero network
calls and no backoff sleep; once the age reaches or exceeds `CACHE_TTL`,
the same call (with a succeeding first network attempt) performs exactly
one network request and returns the freshly decoded body. -/
theorem c1_cache_ttl (net : ℕ → NetAttempt) (now ts : ℚ) (payload body : Jv)
    (hpayload : payload ≠ .null) :
    (now - ts < CACHE_TTL →
      fetch net true now
        (some (.content (.obj [("_ts", .num ts), ("_payload", payload)]))) =
      ⟨.ok payload, 0, [], 0⟩) ∧
    (CACHE_TTL ≤ now - ts → net 0 = .success body .ok →
      fetch net true now
        (some (.content (.obj [("_ts", .num ts), ("_payload", payload)]))) =
      ⟨.ok body, 1, [], 1⟩) := by
  constructor
  · intro h
    exact fetch_hit _ _ _ _ (read_cache_fresh now ts payload h) hpayload
  · intro h h0
    rw [fetch_miss _ _ _ (read_cache_stale now ts payload h)]
    simp [fetchLoop, MAX_RETRIES, h0]

/-- C1 witness: a fresh entry (age 100) with payload 9 is served from the
cache; a stale entry (age 5000) triggers one network call returning 3. -/
theorem c1_witness :
    fetch (fun _ => .success (.num 3) .ok) true 100
        (some (.content (.obj [("_ts", .num 0), ("_payload", .num 9)]))) =
      ⟨.ok (.num 9), 0, [], 0⟩ ∧
    fetch (fun _ => .success (.num 3) .ok) true 5000
        (some (.content (.obj [("_ts", .num 0), ("_payload", .num 9)]))) =
      ⟨.ok (.num 3), 1, [], 1⟩ :=
  ⟨(c1_cache_ttl (fun _ => .success (.num 3) .ok) 100 0 (.num 9) (.num 3)
      (by simp)).1 (by norm_num [CACHE_TTL]),
   (c1_cache_ttl (fun _ => .success (.num 3) .ok) 5000 0 (.num 9) (.num 3)
      (by simp)).2 (by norm_num [CACHE_TTL]) rfl⟩

/-- C2: when every network attempt yields HTTP 429, `_fetch` performs
exactly `MAX_RETRIES = 5` network attempts, sleeps
`RATE_DELAY * 2 ^ i` after the i-th attempt for i = 0, ..., 4 (a
strictly increasing sequence of delays), and returns `None` without
raising. -/
theorem c2_all_429_returns_none (net : ℕ → NetAttempt) (now : ℚ)
    (h : ∀ i < MAX_RETRIES, net i = .httpError 429) :
    fetch net true now none =
      ⟨.ok .null, MAX_RETRIES,
        [backoff 0, backoff 1, backoff 2, backoff 3, backoff 4], 0⟩ ∧
    List.Chain' (fun a b => a < b)
      [backoff 0, backoff 1, backoff 2, backoff 3, backoff 4] := by
  constructor
  · have h0 := h 0 (by norm_num [MAX_RETRIES])
    have h1 := h 1 (by norm_num [MAX_RETRIES])
    have h2 := h 2 (by norm_num [MAX_RETRIES])
    have h3 := h 3 (by norm_num [MAX_RETRIES])
    have h4 := h 4 (by norm_num [MAX_RETRIES])
    simp [fetch, read_cache, fetchLoop, MAX_RETRIES, h0, h1, h2, h3, h4]
  · norm_num [backoff, RATE_DELAY]

/-- C2 witness: the all-429 network at a concrete instant. -/
theorem c2_witness :
    fetch (fun _ => .httpError 429) true 0 none =
      ⟨.ok .null, MAX_RETRIES,
        [backoff 0, backoff 1, backoff 2, backoff 3, backoff 4], 0⟩ :=
  (c2_all_429_returns_none (fun _ => .httpError 429) 0 (fun _ _ => rfl)).1

/-- C3 counterexample: with both `WEBLATE_API_KEY = "ENVKEY"` and a config
file `"CFGKEY"` set, `resolve()` yields the environment value — and
memoizes it in the module-global `_api_key`.  After clearing the
environment variable, a subsequent `resolve()` in the same process
returns the memoized `"ENVKEY"`, not the config file's `"CFGKEY"` as
the claim states. -/
theorem c3_counterexample :
    (get_api_key ⟨some "ENVKEY", none, none, some "CFGKEY"⟩ none).1 =
      some "ENVKEY" ∧
    (get_api_key ⟨none, none, none, some "CFGKEY"⟩
        (get_api_key ⟨some "ENVKEY", none, none, some "CFGKEY"⟩ none).2).1 =
      some "ENVKEY" ∧
    (get_api_key ⟨none, none, none, some "CFGKEY"⟩
        (get_api_key ⟨some "ENVKEY", none, none, some "CFGKEY"⟩ none).2).1 ≠
      some "CFGKEY" := by
  refine ⟨rfl, rfl, ?_⟩
  decide

/-- C3 (amended): from un-memoized state the sources are tried in the fixed
order `WEBLATE_API_KEY`, `FEDORA_WEBLATE_KEY` (first non-empty wins),
then the secret store, then the config file (used when non-empty after
stripping); the first non-empty value wins and the rest are skipped.
With both an environment variable and a config file set, resolution
yields the environment value; after clearing the environment variable, a
resolution from un-memoized state (a fresh process) yields the config
value — within one process the memoized value persists instead. -/
theorem c3_precedence (w f s c : String) (hw : w ≠ "") (hf : f ≠ "")
    (hs : s ≠ "") (hc : pyStrip c ≠ "") :
    (get_api_key ⟨some w, some f, some s, some c⟩ none).1 = some w ∧
    (get_api_key ⟨none, some f, some s, some c⟩ none).1 = some f ∧
    (get_api_key ⟨some "", some f, some s, some c⟩ none).1 = some f ∧
    (get_api_key ⟨none, none, some s, some c⟩ none).1 = some s ∧
    (get_api_key ⟨none, none, none, some c⟩ none).1 = some (pyStrip c) ∧
    (get_api_key ⟨some w, none, none, some c⟩ none).1 = some w ∧
    (get_api_key ⟨none, none, none, some c⟩ none).2 = some (pyStrip c) := by
  refine ⟨?_, ?_, ?_, ?_, ?_, ?_, ?_⟩ <;>
    simp [get_api_key, pyOrStr, strTruthy, hw, hf, hs, hc]

/-- C3 witness: concrete key material for every source. -/
theorem c3_witness :
    (get_api_key ⟨some "W", some "F", some "S", some " C "⟩ none).1 = some "W" ∧
    (get_api_key ⟨none, some "F", some "S", some " C "⟩ none).1 = some "F" ∧
    (get_api_key ⟨some "", some "F", some "S", some " C "⟩ none).1 = some "F" ∧
    (get_api_key ⟨none, none, some "S", some " C "⟩ none).1 = some "S" ∧
    (get_api_key ⟨none, none, none, some " C "⟩ none).1 = some (pyStrip " C ") ∧
    (get_api_key ⟨some "W", none, none, some " C "⟩ none).1 = some "W" ∧
    (get_api_key ⟨none, none, none, some " C "⟩ none).2 = some (pyStrip " C ") :=
  c3_precedence "W" "F" "S" " C " (by decide) (by decide) (by decide) (by decide)

/-- C4: over a 3-page chain (each page holding the server-reported item
count `c` with `100 < c ≤ 150` and chaining via `next` until a final
`next = null`), `get_projects` aggregates the concatenation of the three
pages' `results` and invokes the progress callback exactly three times
with `(1, 3)`, `(2, 3)`, `(3, 3)`, where `3` is the ceiling of `c / 50`
(the code's `(count + 49) // 50`); `get_components` performs the same
traversal and aggregation. -/
theorem c4_pagination (pageOf : String → Jv) (u1 u2 u3 : String)
    (r1 r2 r3 : List Jv) (c : ℕ)
    (h1 : u1 ≠ "") (h2 : u2 ≠ "") (h3 : u3 ≠ "")
    (hc : 100 < c ∧ c ≤ 150)
    (hp1 : pageOf u1 = mkPage r1 (.str u2) c)
    (hp2 : pageOf u2 = mkPage r2 (.str u3) c)
    (hp3 : pageOf u3 = mkPage r3 .null c) :
    get_projects_loop pageOf 4 (.str u1) 0 =
      .ok (r1 ++ (r2 ++ r3), [(1, 3), (2, 3), (3, 3)]) ∧
    (3 : ℤ) = ⌈(c : ℚ) / 50⌉ ∧
    get_components_loop pageOf 4 (.str u1) = .ok (r1 ++ (r2 ++ r3)) := by
  obtain ⟨hcl, hcu⟩ := hc
  have hcl' : (101 : ℚ) ≤ (c : ℚ) := by exact_mod_cast hcl
  have hcu' : (c : ℚ) ≤ 150 := by exact_mod_cast hcu
  have hfloor : (⌊((c : ℚ) + 49) / 50⌋ : ℤ) = 3 := by
    rw [Int.floor_eq_iff]
    refine ⟨?_, ?_⟩
    · rw [le_div_iff₀ (by norm_num)]
      push_cast
      linarith
    · rw [div_lt_iff₀ (by norm_num)]
      push_cast
      linarith
  have hceil : (⌈(c : ℚ) / 50⌉ : ℤ) = 3 := by
    rw [Int.ceil_eq_iff]
    refine ⟨?_, ?_⟩
    · rw [lt_div_iff₀ (by norm_num)]
      push_cast
      linarith
    · rw [div_le_iff₀ (by norm_num)]
      push_cast
      linarith
  refine ⟨?_, hceil.symm, ?_⟩
  · simp [get_projects_loop, hp1, hp2, hp3, mkPage, pyGet, Jv.asNum,
      Jv.asList, Jv.truthy, h1, h2, h3, bind, Except.bind, pure, Except.pure,
      List.lookup, hfloor]
  · simp [get_components_loop, hp1, hp2, hp3, mkPage, pyGet,
      Jv.asList, Jv.truthy, h1, h2, h3, bind, Except.bind, pure, Except.pure,
      List.lookup]

/-- C4 witness: a concrete 3-page world with count 120. -/
theorem c4_witness :
    get_projects_loop
      (fun u => if u = "a" then mkPage [.num 1] (.str "b") 120
        else if u = "b" then mkPage [.num 2] (.str "c") 120
        else if u = "c" then mkPage [.num 3] .null 120
        else .null)
      4 (.str "a") 0 =
      .ok ([.num 1] ++ ([.num 2] ++ [.num 3]), [(1, 3), (2, 3), (3, 3)]) :=
  (c4_pagination _ "a" "b" "c" [.num 1] [.num 2] [.num 3] 120
    (by decide) (by decide) (by decide) (by norm_num) rfl rfl rfl).1

/-- Helper: one pass through the rate limiter starts the next request at
least `RATE_DELAY` after the previously recorded start instant. -/
theorem rateLimitedStart_gap (last now ε : ℚ) (hε : 0 ≤ ε) :
    last + RATE_DELAY ≤ rateLimitedStart last now ε := by
  rcases lt_or_le (now - last) RATE_DELAY with h' | h'
  · simp only [rateLimitedStart, if_pos h']
    linarith
  · simp only [rateLimitedStart, if_neg (not_lt.mpr h')]
    linarith

/-- C5: along any sequence of sequential `_fetch` attempts, the recorded
start instants of consecutive network requests (each recorded into the
shared `_last_request_time` immediately before the request is issued)
are spaced at least `RATE_DELAY` apart, because each pass first sleeps
off the remainder of the minimum delay. -/
theorem c5_min_request_gap (t0 : ℚ) (evs : List (ℚ × ℚ))
    (h : ∀ p ∈ evs, 0 ≤ p.2) :
    List.Chain' (fun a b => a + RATE_DELAY ≤ b) (startTimes t0 evs) := by
  induction evs generalizing t0 with
  | nil => simp [startTimes]
  | cons p rest ih =>
    obtain ⟨now, ε⟩ := p
    simp only [startTimes]
    rw [List.chain'_cons']
    constructor
    · intro b hb
      cases rest with
      | nil => simp [startTimes] at hb
      | cons q r2 =>
        obtain ⟨n2, e2⟩ := q
        simp only [startTimes, List.head?_cons, Option.mem_def,
          Option.some.injEq] at hb
        subst hb
        exact rateLimitedStart_gap _ n2 e2
          (h (n2, e2) (List.mem_cons_of_mem _ (List.mem_cons_self _ _)))
    · exact ih _ (fun q hq => h q (List.mem_cons_of_mem _ hq))

/-- C5 witness: two rapid calls 0.1 s apart with exact sleeps. -/
theorem c5_witness :
    List.Chain' (fun a b => a + RATE_DELAY ≤ b)
      (startTimes 0 [(0, 0), (1/10, 0)]) :=
  c5_min_request_gap 0 [(0, 0), (1/10, 0)] (by norm_num)

/-- C6: when every network attempt fails with a transient
`URLError`/`OSError`, `_fetch` sleeps the exponential backoff
`RATE_DELAY * 2 ^ attempt` and retries after each of the first four
failures, and the failure on the final (5th) attempt propagates to the
caller as an exception — not swallowed and not converted to `None`. -/
theorem c6_transient_error_final_raises (net : ℕ → NetAttempt) (now : ℚ)
    (h : ∀ i < MAX_RETRIES, net i = .netError) :
    fetch net true now none =
      ⟨.error .netError, MAX_RETRIES,
        [backoff 0, backoff 1, backoff 2, backoff 3], 0⟩ := by
  have h0 := h 0 (by norm_num [MAX_RETRIES])
  have h1 := h 1 (by norm_num [MAX_RETRIES])
  have h2 := h 2 (by norm_num [MAX_RETRIES])
  have h3 := h 3 (by norm_num [MAX_RETRIES])
  have h4 := h 4 (by norm_num [MAX_RETRIES])
  simp [fetch, read_cache, fetchLoop, MAX_RETRIES, h0, h1, h2, h3, h4]

/-- C6 witness: the all-transient-failure network at a concrete instant. -/
theorem c6_witness :
    fetch (fun _ => .netError) true 0 none =
      ⟨.error .netError, MAX_RETRIES,
        [backoff 0, backoff 1, backoff 2, backoff 3], 0⟩ :=
  c6_transient_error_final_raises (fun _ => .netError) 0 (fun _ _ => rfl)

/-- C7 evaluation at the failing input.  Supporting the claim: an
unreadable cache file and a file whose text fails to parse as JSON are
both treated as a miss, and `_fetch` then performs exactly one fresh
network call.  The bug: a cache file whose text is valid JSON but not an
object — here the JSON text `[]` — makes `data.get("_ts", 0)` raise
`AttributeError`, which the `except (json.JSONDecodeError, OSError)`
clause does not catch, so `_fetch` propagates an exception to the caller
(with zero network calls) instead of treating the file as a miss. -/
theorem c7_corrupt_cache :
    read_cache 0 (some .malformed) = .ok .null ∧
    read_cache 0 (some .unreadable) = .ok .null ∧
    fetch (fun _ => .success (.num 1) .ok) true 0 (some .malformed) =
      ⟨.ok (.num 1), 1, [], 1⟩ ∧
    fetch (fun _ => .success (.num 1) .ok) true 0 (some .unreadable) =
      ⟨.ok (.num 1), 1, [], 1⟩ ∧
    read_cache 0 (some (.content (.arr []))) = .error .attributeError ∧
    fetch (fun _ => .success (.num 1) .ok) true 0 (some (.content (.arr []))) =
      ⟨.error .attributeError, 0, [], 0⟩ := by
  refine ⟨rfl, rfl, ?_, ?_, rfl, ?_⟩ <;>
    simp [fetch, read_cache, fetchLoop, MAX_RETRIES, pyGet, bind, Except.bind,
      pure, Except.pure]

/-- C8 evaluation at the failing input.  Supporting the claim: when the
network attempt succeeds and persisting fails inside `write_text` (disk
full, permissions), the OSError is swallowed and the decoded body is
returned after one network call.  The bug: when `CACHE_DIR.mkdir` raises
OSError (cache-directory creation failure), the exception escapes
`_write_cache` into `_fetch`'s `except (URLError, OSError)` handler —
the decoded body is discarded, the client sleeps the backoff and
re-issues the network request, and on the final attempt the OSError
propagates to the caller: the write failure alters the result, triggers
retries and surfaces as an error. -/
theorem c8_cache_write_failure :
    fetch (fun _ => .success (.num 7) .failSwallowed) true 0 none =
      ⟨.ok (.num 7), 1, [], 0⟩ ∧
    fetch (fun _ => .success (.num 7) .mkdirRaise) true 0 none =
      ⟨.error .oserror, MAX_RETRIES,
        [backoff 0, backoff 1, backoff 2, backoff 3], 0⟩ := by
  constructor <;> simp [fetch, read_cache, fetchLoop, MAX_RETRIES]

/-- C9: `clear_cache` empties the cache directory — every subsequent
lookup of a cache file misses, so a following `_fetch` of any
previously-cached URL performs exactly one fresh network call — and it
changes nothing else: the memoized credential and the rate limiter's
last-request instant keep their values. -/
theorem c9_clear_cache (s : ApiState) (stem : String) (now : ℚ)
    (net : ℕ → NetAttempt) (body : Jv) (h0 : net 0 = .success body .ok) :
    (clear_cache s).cacheDir.lookup stem = none ∧
    (clear_cache s).apiKeyMemo = s.apiKeyMemo ∧
    (clear_cache s).lastRequestTime = s.lastRequestTime ∧
    fetch net true now ((clear_cache s).cacheDir.lookup stem) =
      ⟨.ok body, 1, [], 1⟩ := by
  refine ⟨rfl, rfl, rfl, ?_⟩
  simp [clear_cache, fetch, read_cache, fetchLoop, MAX_RETRIES, h0]

/-- C9 witness: a state with one cached entry, a memoized key and a
nonzero last-request instant. -/
theorem c9_witness :
    (clear_cache ⟨[("0123456789abcdef", .content (.num 1))], some "K", 42⟩).cacheDir.lookup
        "0123456789abcdef" = none ∧
    (clear_cache ⟨[("0123456789abcdef", .content (.num 1))], some "K", 42⟩).apiKeyMemo =
      some "K" ∧
    (clear_cache ⟨[("0123456789abcdef", .content (.num 1))], some "K", 42⟩).lastRequestTime =
      42 ∧
    fetch (fun _ => .success (.num 9) .ok) true 0
        ((clear_cache ⟨[("0123456789abcdef", .content (.num 1))], some "K", 42⟩).cacheDir.lookup
          "0123456789abcdef") =
      ⟨.ok (.num 9), 1, [], 1⟩ :=
  c9_clear_cache ⟨[("0123456789abcdef", .content (.num 1))], some "K", 42⟩
    "0123456789abcdef" 0 (fun _ => .success (.num 9) .ok) (.num 9) rfl

/-- C10: a well-formed unexpired cache entry whose payload is JSON `null`
(or which lacks the `_payload` field) reads back as `None`, i.e. a miss,
so `_fetch` performs a network call despite the entry; a successful
response whose body decodes to `null` is persisted to the cache but
`_fetch` returns `.ok .null` — the very value `_fetch` returns after
exhausting its retry budget, so the two are indistinguishable — and
pagination stops as soon as a page fetch yields `null`. -/
theorem c10_null_payload (now ts : ℚ) (net net429 : ℕ → NetAttempt) (body : Jv)
    (pageOf : String → Jv) (u : String)
    (h0 : net 0 = .success body .ok)
    (hn : ∀ i < MAX_RETRIES, net429 i = .httpError 429)
    (hu : u ≠ "") (hpu : pageOf u = .null) :
    read_cache now
      (some (.content (.obj [("_ts", .num ts), ("_payload", .null)]))) =
      .ok .null ∧
    read_cache now (some (.content (.obj [("_ts", .num ts)]))) = .ok .null ∧
    fetch net true now
      (some (.content (.obj [("_ts", .num ts), ("_payload", .null)]))) =
      ⟨.ok body, 1, [], 1⟩ ∧
    (fetch (fun _ => .success .null .ok) true now none).result = .ok .null ∧
    (fetch (fun _ => .success .null .ok) true now none).cacheWrites = 1 ∧
    (fetch net429 true now none).result = .ok .null ∧
    get_projects_loop pageOf 1 (.str u) 0 = .ok ([], []) ∧
    get_components_loop pageOf 1 (.str u) = .ok [] := by
  have hread : read_cache now
      (some (.content (.obj [("_ts", .num ts), ("_payload", .null)]))) =
      .ok .null := by
    rcases lt_or_le (now - ts) CACHE_TTL with h | h
    · exact read_cache_fresh now ts .null h
    · exact read_cache_stale now ts .null h
  have hread2 : read_cache now (some (.content (.obj [("_ts", .num ts)]))) =
      .ok .null := by
    rcases lt_or_le (now - ts) CACHE_TTL with h | h
    · simp [read_cache, pyGet, Jv.asNum, List.lookup, bind, Except.bind, h]
    · simp [read_cache, pyGet, Jv.asNum, List.lookup, bind, Except.bind, pure,
        Except.pure, not_lt.mpr h]
  have h429 : (fetch net429 true now none).result = .ok .null := by
    have h0' := hn 0 (by norm_num [MAX_RETRIES])
    have h1 := hn 1 (by norm_num [MAX_RETRIES])
    have h2 := hn 2 (by norm_num [MAX_RETRIES])
    have h3 := hn 3 (by norm_num [MAX_RETRIES])
    have h4 := hn 4 (by norm_num [MAX_RETRIES])
    simp [fetch, read_cache, fetchLoop, MAX_RETRIES, h0', h1, h2, h3, h4]
  refine ⟨hread, hread2, ?_, ?_, ?_, h429, ?_, ?_⟩
  · rw [fetch_miss _ _ _ hread]
    simp [fetchLoop, MAX_RETRIES, h0]
  · simp [fetch, read_cache, fetchLoop, MAX_RETRIES]
  · simp [fetch, read_cache, fetchLoop, MAX_RETRIES]
  · simp [get_projects_loop, Jv.truthy, hu, hpu]
  · simp [get_components_loop, Jv.truthy, hu, hpu]

/-- C10 witness: a concrete successful network whose first attempt returns
body 7, a second all-429 network, and a page oracle returning `null` for
the start URL. -/
theorem c10_witness :
    read_cache 5 (some (.content (.obj [("_ts", .num 2), ("_payload", .null)]))) =
      .ok .null ∧
    (fetch (fun _ => .success .null .ok) true 5 none).result = .ok .null ∧
    (fetch (fun _ => .httpError 429) true 5 none).result = .ok .null ∧
    get_projects_loop (fun _ => .null) 1 (.str "x") 0 = .ok ([], []) := by
  have h := c10_null_payload 5 2 (fun _ => .success (.num 7) .ok)
    (fun _ => .httpError 429) (.num 7) (fun _ => .null) "x" rfl
    (fun _ _ => rfl) (by decide) rfl
  exact ⟨h.1, h.2.2.2.1, h.2.2.2.2.2.1, h.2.2.2.2.2.2.1⟩

end FedoraL10n
